import Mathlib

/-!
Shallow embedding of the Dragons Trend bot core (src/main.py): payment
verification (EVM and Solana), the project store with its mutating commands
(submission, payment verification, voting), and the leaderboard ranking.
Network interactions are modelled by passing the outcome of each HTTP/RPC
call as an explicit argument; a Python exception that the source code does
not catch is modelled as `Except.error` escaping the embedded function.
-/

namespace DragonsTrend

/-- Wallet table from main.py (`WALLETS`): chain → expected receiving address. -/
def WALLETS : List (String × String) :=
  [("SOL", "EZL57GDRFCr5mGNstcQjwDgspfrWr579d97mtQo63EWn"),
   ("ETH", "0xEf3C9Fb7B03A0e78D1D689949b8BDee735737d67"),
   ("BNB", "0xEf3C9Fb7B03A0e78D1D689949b8BDee735737d67")]

/-- Association-list lookup keyed by string, modelling Python dict access
(first matching key wins; dicts never hold duplicate keys). -/
def lookupKV {α : Type} : List (String × α) → String → Option α
  | [], _ => none
  | kv :: rest, k => if kv.1 = k then some kv.2 else lookupKV rest k

/-- Python dict assignment `d[k] = v`: replaces the value in place when the
key is present (keeping its position, as Python dicts preserve insertion
order), otherwise appends the new binding at the end. Keys are unique in a
Python dict, so replacing the first occurrence is replacing the only one. -/
def dictSet {α : Type} : List (String × α) → String → α → List (String × α)
  | [], k, v => [(k, v)]
  | kv :: rest, k, v => if kv.1 = k then (k, v) :: rest else kv :: dictSet rest k v

/-- Python str.lower() on the ASCII strings this code lowercases (hex
addresses, command text): character-wise lowering, written by structural
recursion over the characters so that proofs can evaluate it (the library
String.toLower is defined by well-founded recursion, which the kernel
cannot unfold). -/
def pyLower (s : String) : String := String.mk (s.data.map Char.toLower)

/-- Value of one hexadecimal digit character, if it is one. -/
def hexDigit? (c : Char) : Option Nat :=
  if '0' ≤ c ∧ c ≤ '9' then some (c.toNat - '0'.toNat)
  else if 'a' ≤ c ∧ c ≤ 'f' then some (c.toNat - 'a'.toNat + 10)
  else if 'A' ≤ c ∧ c ≤ 'F' then some (c.toNat - 'A'.toNat + 10)
  else none

/-- Parse a nonempty run of hex digits; `none` on the empty list or any
non-hex character. -/
def parseHexDigits (cs : List Char) : Option Nat :=
  match cs with
  | [] => none
  | _ =>
    cs.foldl
      (fun acc c =>
        match acc, hexDigit? c with
        | some a, some d => some (a * 16 + d)
        | _, _ => none)
      (some 0)

/-- Models the Python builtin `int(s, 16)` as used on the transaction value:
optional sign, optional `0x`/`0X` prefix, then hex digits; `none` models the
ValueError raised on anything else. (Python additionally tolerates
surrounding whitespace and grouping underscores; those forms do not occur in
hex-encoded RPC values and are not modelled.) -/
def parseHexInt (s : String) : Option Int :=
  let cs := s.data
  let signed : Int × List Char :=
    match cs with
    | '-' :: rest => (-1, rest)
    | '+' :: rest => (1, rest)
    | _ => (1, cs)
  let digits : List Char :=
    match signed.2 with
    | '0' :: 'x' :: rest => rest
    | '0' :: 'X' :: rest => rest
    | _ => signed.2
  (parseHexDigits digits).map (fun n => signed.1 * n)

/-- The fields of an `eth_getTransactionByHash` result that
`check_eth_tx_for_payment` reads: `result.get("to")` and
`result.get("value", "0x0")`. -/
structure EthTxResult where
  toAddr : Option String
  value : Option String
deriving Repr, DecidableEq

/-- Outcome of the Etherscan HTTP interaction in `check_eth_tx_for_payment`.
`exn` models an exception raised by `requests.get` (timeout, transport
failure); in `reply`, the body is the outcome of `resp.json()`: `.error`
models a JSON-decode exception, `.ok none` models an absent/null/falsy
`"result"` field, and `.ok (some r)` a transaction result object. -/
inductive EthResponse where
  | exn (msg : String)
  | reply (status : Nat) (body : Except String (Option EthTxResult))

/-- Embedding of `check_eth_tx_for_payment` (src/main.py lines 99-132).
The Etherscan API key and the HTTP outcome are explicit arguments; the
Python return value `(bool, reason)` becomes the `.ok` payload and an
uncaught exception becomes `.error` (the source wraps none of the network
calls of this function in try/except; only the value parse is guarded).
The source signature also declares an unused `min_usd` parameter, omitted
here (the body never reads it; the orchestrator's two-argument call never
binds it and raises TypeError instead — see `dispatch_verifier`). -/
def check_eth_tx_for_payment (apiKey : Option String) (resp : EthResponse)
    (tx_hash expected_to : String) : Except String (Bool × String) :=
  match apiKey with
  | none =>
    .ok (false, "Missing ETHERSCAN_API_KEY (set this in Render environment if you want on-chain ETH/BNB verification).")
  | some _ =>
    match resp with
    | .exn e => .error e
    | .reply status body =>
      if status ≠ 200 then
        .ok (false, "Etherscan query failed with status " ++ toString status)
      else
        match body with
        | .error e => .error e
        | .ok none => .ok (false, "Transaction not found.")
        | .ok (some result) =>
          let to_addr := result.toAddr.getD ""
          if pyLower to_addr ≠ pyLower expected_to then
            .ok (false, "Tx recipient " ++ to_addr ++ " does not match expected " ++ expected_to ++ ".")
          else
            let value_hex := result.value.getD "0x0"
            let value_wei : Int := (parseHexInt value_hex).getD 0
            if value_wei ≤ 0 then
              .ok (false, "Transaction value is zero.")
            else
              .ok (true, "Transaction found and sent to expected address.")

/-- One entry of `result.transaction.message.accountKeys` in a parsed Solana
`getTransaction` response: either a raw base58 string or a structured object
whose `"pubkey"` field `k.get("pubkey")` would return (`none` models an
object without that key). -/
inductive AccountKey where
  | raw (s : String)
  | obj (pubkey : Option String)
deriving Repr, DecidableEq

/-- The part of a Solana `getTransaction` result that
`check_solana_tx_for_payment` reads (the `meta` field is fetched but never
used): the account keys of the transaction message. -/
structure SolResult where
  accountKeys : List AccountKey
deriving Repr, DecidableEq

/-- Python membership test `expected_to in account_keys`: a string compares
equal only to raw string entries. -/
def keyEqString (expected_to : String) : AccountKey → Bool
  | .raw s => s = expected_to
  | .obj _ => false

/-- The list comprehension `[k.get("pubkey") for k in account_keys]`:
calling `.get` on a raw string entry raises AttributeError, modelled as
`.error ()`; on object entries it collects the optional pubkey. -/
def pubkeyList : List AccountKey → Except Unit (List (Option String))
  | [] => .ok []
  | .raw _ :: _ => .error ()
  | .obj pk :: rest => (pubkeyList rest).map (fun l => pk :: l)

/-- Outcome of the Solana RPC interaction: `exn` models an exception from
`requests.post` or `resp.json()` (both inside the try block of the source),
`reply none` models an absent/null/falsy `"result"`, and `reply (some r)` a
parsed transaction result. -/
inductive SolRpc where
  | exn (msg : String)
  | reply (result : Option SolResult)
deriving Repr, DecidableEq

/-- Embedding of `check_solana_tx_for_payment` (src/main.py lines 134-164).
Every failure path is caught in the source, so the embedding is total: it
always returns a `(verified, reason)` pair. The `signature` argument only
feeds the RPC payload, which is abstracted by `rpc`. -/
def check_solana_tx_for_payment (rpc : SolRpc) (signature expected_to : String) :
    Bool × String :=
  match rpc with
  | .exn e => (false, "RPC call error: " ++ e)
  | .reply none => (false, "Transaction not found on Solana RPC.")
  | .reply (some result) =>
    let account_keys := result.accountKeys
    if account_keys.any (keyEqString expected_to) then
      (true, "Found expected recipient in tx (basic check).")
    else
      match pubkeyList account_keys with
      | .error _ => (false, "Could not parse Solana tx response.")
      | .ok pks =>
        if pks.contains (some expected_to) then
          (true, "Found expected recipient in tx (basic check).")
        else
          (true, "Transaction found (note: this is a basic check; inspect details manually for USD amount).")

/-- A project record, with the fields `submit_confirm` writes
(src/main.py lines 239-251). -/
structure Project where
  id : String
  name : String
  symbol : String
  logo : Option String
  contract_or_wallet : Option String
  description : String
  chain : Option String
  submitted_by : Nat
  submitted_at : String
  payment_verified : Bool
  listed : Bool
deriving Repr, DecidableEq

/-- The persisted `projects.json` snapshot: ordered maps (Python dicts keep
insertion order) from project id to record and from project id to the list
of voter user ids. -/
structure Store where
  projects : List (String × Project)
  votes : List (String × List Nat)
deriving Repr, DecidableEq

/-- The empty snapshot that `load_projects` returns when the file is
missing. -/
def emptyStore : Store := ⟨[], []⟩

/-- Number of votes `get_top_projects` counts for a project id:
`len(data.get("votes", {}).get(pid, []))`. -/
def votesFor (data : Store) (pid : String) : Nat :=
  ((lookupKV data.votes pid).getD []).length

/-- Embedding of `make_project_id` (src/main.py lines 83-87): keep
alphanumeric characters of the name, lowercase, truncate to 20, append an
underscore and the epoch-seconds timestamp. -/
def make_project_id (name : String) (stamp : Nat) : String :=
  String.mk (((name.data.filter Char.isAlphanum).map Char.toLower).take 20) ++ "_" ++ toString stamp

/-- The store mutation performed by `submit_confirm` (src/main.py lines
234-254) when the user confirms: insert a fresh project record with
`payment_verified = False` and `listed = False` under the generated id, and
an empty voter list for that id, then save. -/
def submit_confirm (data : Store) (name symbol : String)
    (logo contract : Option String) (descr : String) (chain : Option String)
    (uid : Nat) (stamp : Nat) (submitted_at : String) : Store :=
  let proj_id := make_project_id name stamp
  { projects :=
      dictSet data.projects proj_id
        { id := proj_id, name := name, symbol := symbol, logo := logo,
          contract_or_wallet := contract, description := descr, chain := chain,
          submitted_by := uid, submitted_at := submitted_at,
          payment_verified := false, listed := false },
    votes := dictSet data.votes proj_id [] }

/-- Reply sent back by `verify_payment_command`. -/
inductive VerifyReply where
  | projectNotFound
  | verified (reason : String)
  | failed (reason : String)
deriving Repr, DecidableEq

/-- The exception raised at the orchestrator's EVM dispatch: src/main.py
line 306 calls `check_eth_tx_for_payment(tx, expected_to)` with two
arguments, but the function (line 99) has three required parameters —
`min_usd` has no default — so Python raises this TypeError at argument
binding, before the checker body or any network call runs. -/
def eth_dispatch_type_error : String :=
  "TypeError: check_eth_tx_for_payment() missing 1 required positional argument: min_usd"

/-- The chain dispatch of `verify_payment_command` (src/main.py lines
294-310): SOL goes to the Solana checker; the ETH/BNB branch raises the
arity TypeError of the two-argument call at line 306 (modelled as `.error`,
so `ethApiKey`/`ethResp` are never consumed — the checker body is never
entered from the orchestrator); anything else is the manual-verification
fallback. `expected_to` is the wallet-table entry for the chain (present
for every dispatched chain, so the `getD ""` default is never the value
actually compared). -/
def dispatch_verifier (project : Project) (tx : String) (ethApiKey : Option String)
    (ethResp : EthResponse) (solRpc : SolRpc) : Except String (Bool × String) :=
  let chain := project.chain
  let expected_to : Option String :=
    match chain with
    | some c => lookupKV WALLETS c
    | none => none
  if chain = some "SOL" then
    .ok (check_solana_tx_for_payment solRpc tx (expected_to.getD ""))
  else if chain = some "ETH" ∨ chain = some "BNB" then
    .error eth_dispatch_type_error
  else
    .ok (false, "No chain configured for this project. Manual verification required.")

/-- Embedding of `verify_payment_command` (src/main.py lines 278-321) after
argument parsing. Returns the resulting store, whether `save_projects` was
called, and the reply; an exception escaping the dispatch (the arity
TypeError of the ETH/BNB branch) escapes the command too, as `.error`. On
success the project is mutated in place (`payment_verified = True`,
`listed = True`) and saved; on failure nothing is written. -/
def verify_payment_command (data : Store) (proj_id tx : String)
    (ethApiKey : Option String) (ethResp : EthResponse) (solRpc : SolRpc) :
    Except String (Store × Bool × VerifyReply) :=
  match lookupKV data.projects proj_id with
  | none => .ok (data, false, .projectNotFound)
  | some project =>
    match dispatch_verifier project tx ethApiKey ethResp solRpc with
    | .error e => .error e
    | .ok (ok, reason) =>
      if ok then
        let project' := { project with payment_verified := true, listed := true }
        .ok ({ data with projects := dictSet data.projects proj_id project' },
             true, .verified reason)
      else
        .ok (data, false, .failed reason)

/-- Reply sent back by `vote_command`. -/
inductive VoteReply where
  | projectNotFound
  | gateError
  | notEligible
  | alreadyVoted
  | recorded (name : String)
deriving Repr, DecidableEq

/-- Membership statuses accepted by `vote_command` (`valid_statuses`). -/
def valid_statuses : List String := ["member", "administrator", "creator"]

/-- Embedding of `vote_command` (src/main.py lines 339-380) after argument
parsing. The two `get_chat_member` calls are abstracted by `gateA`/`gateB`:
`.error` models the call raising (caught by the source's try/except, which
replies with a diagnostic and leaves the store untouched; the second call is
never made when the first raises, so `gateB` is simply unused then). The
store is saved only on the recording path. -/
def vote_command (data : Store) (proj_id : String) (user_id : Nat)
    (gateA gateB : Except String String) : Store × VoteReply :=
  match lookupKV data.projects proj_id with
  | none => (data, .projectNotFound)
  | some project =>
    match gateA with
    | .error _ => (data, .gateError)
    | .ok statusA =>
      match gateB with
      | .error _ => (data, .gateError)
      | .ok statusB =>
        if statusA ∉ valid_statuses ∨ statusB ∉ valid_statuses then
          (data, .notEligible)
        else
          let voters := (lookupKV data.votes proj_id).getD []
          if user_id ∈ voters then
            (data, .alreadyVoted)
          else
            ({ data with votes := dictSet data.votes proj_id (voters ++ [user_id]) },
             .recorded project.name)

/-- The triples `(pid, project, votes)` that `get_top_projects` builds from
the snapshot, in project-map iteration order. -/
def itemsOf (data : Store) : List (String × Project × Nat) :=
  data.projects.map (fun kv => (kv.1, kv.2, votesFor data kv.1))

/-- Stable descending insertion by vote count: the new element goes after
every existing element with a strictly greater count and before the first
one with an equal-or-smaller count, so earlier elements keep their place on
ties. -/
def insertByVotesDesc (x : String × Project × Nat) :
    List (String × Project × Nat) → List (String × Project × Nat)
  | [] => [x]
  | y :: ys => if x.2.2 < y.2.2 then y :: insertByVotesDesc x ys else x :: y :: ys

/-- Stable sort by vote count descending. Python's `list.sort(key=...,
reverse=True)` is guaranteed stable, and the stable descending ordering of a
list is unique, so this insertion sort computes exactly the source's sort
result. -/
def sortByVotesDesc : List (String × Project × Nat) → List (String × Project × Nat)
  | [] => []
  | x :: xs => insertByVotesDesc x (sortByVotesDesc xs)

/-- Embedding of `get_top_projects` (src/main.py lines 89-96): build the
`(pid, project, votes)` triples over all projects (zero-vote projects
included), sort by votes descending (stable), truncate to `limit`. -/
def get_top_projects (data : Store) (limit : Nat := 10) :
    List (String × Project × Nat) :=
  (sortByVotesDesc (itemsOf data)).take limit

/-- One persisted-store mutation of the bot: a confirmed submission, a
successful or failed payment verification, or a vote. Commands that only
reply (or raise) without saving do not change the persisted store and need
no step. -/
inductive Step : Store → Store → Prop
  | submit (data : Store) (name symbol : String) (logo contract : Option String)
      (descr : String) (chain : Option String) (uid : Nat) (stamp : Nat)
      (submitted_at : String) :
      Step data (submit_confirm data name symbol logo contract descr chain uid stamp submitted_at)
  | verify (data : Store) (proj_id tx : String) (ethApiKey : Option String)
      (ethResp : EthResponse) (solRpc : SolRpc) (data' : Store) (saved : Bool)
      (reply : VerifyReply)
      (h : verify_payment_command data proj_id tx ethApiKey ethResp solRpc =
        .ok (data', saved, reply)) :
      Step data data'
  | vote (data : Store) (proj_id : String) (user_id : Nat)
      (gateA gateB : Except String String) :
      Step data (vote_command data proj_id user_id gateA gateB).1

/-- Stores reachable from the empty snapshot through the bot's mutating
commands. -/
inductive Reachable : Store → Prop
  | init : Reachable emptyStore
  | step {s s' : Store} (hs : Reachable s) (h : Step s s') : Reachable s'

theorem lookupKV_dictSet_self {α : Type} (l : List (String × α)) (k : String) (v : α) :
    lookupKV (dictSet l k v) k = some v := by
  induction l with
  | nil => simp [dictSet, lookupKV]
  | cons kv rest ih =>
    by_cases h : kv.1 = k
    · simp [dictSet, lookupKV, h]
    · simp [dictSet, lookupKV, h, ih]

theorem lookupKV_dictSet_ne {α : Type} (l : List (String × α)) {k k' : String} (v : α)
    (h : k' ≠ k) : lookupKV (dictSet l k v) k' = lookupKV l k' := by
  induction l with
  | nil => simp [dictSet, lookupKV, Ne.symm h]
  | cons kv rest ih =>
    by_cases hk : kv.1 = k
    · simp [dictSet, lookupKV, hk, Ne.symm h]
    · by_cases hk' : kv.1 = k'
      · simp [dictSet, lookupKV, hk, hk', h]
      · simp [dictSet, lookupKV, hk, hk', ih]

theorem mem_dictSet {α : Type} {l : List (String × α)} {k : String} {v : α}
    {x : String × α} (hx : x ∈ dictSet l k v) : x = (k, v) ∨ x ∈ l := by
  induction l with
  | nil => simpa [dictSet] using hx
  | cons kv rest ih =>
    by_cases h : kv.1 = k
    · simp [dictSet, h] at hx
      rcases hx with hx | hx
      · exact Or.inl hx
      · exact Or.inr (List.mem_cons_of_mem _ hx)
    · simp [dictSet, h] at hx
      rcases hx with hx | hx
      · exact Or.inr (by simp [hx])
      · rcases ih hx with hh | hh
        · exact Or.inl hh
        · exact Or.inr (List.mem_cons_of_mem _ hh)

theorem lookupKV_mem {α : Type} {l : List (String × α)} {k : String} {v : α}
    (h : lookupKV l k = some v) : (k, v) ∈ l := by
  induction l with
  | nil => simp [lookupKV] at h
  | cons kv rest ih =>
    by_cases hk : kv.1 = k
    · simp [lookupKV, hk] at h
      subst h
      simp [← hk]
    · simp [lookupKV, hk] at h
      exact List.mem_cons_of_mem _ (ih h)

/-- Invariant: a listed project is payment-verified. -/
def ListedImpliesVerified (s : Store) : Prop :=
  ∀ kv ∈ s.projects, kv.2.listed = true → kv.2.payment_verified = true

/-- Invariant: no voter id occurs twice in any project's vote list. -/
def VotesNodup (s : Store) : Prop :=
  ∀ kv ∈ s.votes, kv.2.Nodup

/-- Case analysis of a non-raising `verify_payment_command` run: either the
store is returned untouched (with no save), or the project is replaced by
its copy with both payment flags set to true (and saved). -/
theorem verify_payment_command_cases {data : Store} {proj_id tx : String}
    {ethApiKey : Option String} {ethResp : EthResponse} {solRpc : SolRpc}
    {data' : Store} {saved : Bool} {reply : VerifyReply}
    (h : verify_payment_command data proj_id tx ethApiKey ethResp solRpc =
      .ok (data', saved, reply)) :
    (data' = data ∧ saved = false ∧
      (reply = .projectNotFound ∨ ∃ r2, reply = .failed r2)) ∨
    ∃ p reason, lookupKV data.projects proj_id = some p ∧
      data' = { data with projects := (dictSet data.projects proj_id
        ({ p with payment_verified := true, listed := true })) } ∧
      saved = true ∧ reply = .verified reason := by
  unfold verify_payment_command at h
  split at h
  next =>
    simp only [Except.ok.injEq, Prod.mk.injEq] at h
    obtain ⟨rfl, rfl, rfl⟩ := h
    exact Or.inl ⟨rfl, rfl, Or.inl rfl⟩
  next project hp =>
    split at h
    next e hd => exact absurd h (by simp)
    next ok reason hd =>
      split at h
      next hok =>
        simp only [Except.ok.injEq, Prod.mk.injEq] at h
        obtain ⟨rfl, rfl, rfl⟩ := h
        exact Or.inr ⟨project, reason, hp, rfl, rfl, rfl⟩
      next hok =>
        simp only [Except.ok.injEq, Prod.mk.injEq] at h
        obtain ⟨rfl, rfl, rfl⟩ := h
        exact Or.inl ⟨rfl, rfl, Or.inr ⟨reason, rfl⟩⟩

/-- A successful or failed verification never touches the vote map. -/
theorem verify_payment_command_votes {data : Store} {proj_id tx : String}
    {ethApiKey : Option String} {ethResp : EthResponse} {solRpc : SolRpc}
    {data' : Store} {saved : Bool} {reply : VerifyReply}
    (h : verify_payment_command data proj_id tx ethApiKey ethResp solRpc =
      .ok (data', saved, reply)) : data'.votes = data.votes := by
  rcases verify_payment_command_cases h with ⟨h1, _⟩ | ⟨p, reason, _, h1, _⟩ <;>
    simp [h1]

/-- Case analysis of a `vote_command` run: either the store is returned
untouched, or the caller's id is appended to the project's voter list, in
which case it was not there before. -/
theorem vote_command_cases (data : Store) (proj_id : String) (user_id : Nat)
    (gateA gateB : Except String String) :
    (vote_command data proj_id user_id gateA gateB).1 = data ∨
    (user_id ∉ (lookupKV data.votes proj_id).getD [] ∧
      (vote_command data proj_id user_id gateA gateB).1 =
        { data with votes := (dictSet data.votes proj_id
            (((lookupKV data.votes proj_id).getD []) ++ [user_id])) }) := by
  unfold vote_command
  cases hp : lookupKV data.projects proj_id with
  | none => simp
  | some project =>
    cases gateA with
    | error e => simp
    | ok statusA =>
      cases gateB with
      | error e => simp
      | ok statusB =>
        by_cases he : statusA ∉ valid_statuses ∨ statusB ∉ valid_statuses
        · simp [he]
        · dsimp only
          rw [if_neg he]
          by_cases hv : user_id ∈ (lookupKV data.votes proj_id).getD []
          · simp [hv]
          · simp [hv]

/-- Voting never touches the project map. -/
theorem vote_command_projects (data : Store) (proj_id : String) (user_id : Nat)
    (gateA gateB : Except String String) :
    (vote_command data proj_id user_id gateA gateB).1.projects = data.projects := by
  rcases vote_command_cases data proj_id user_id gateA gateB with h | ⟨_, h⟩ <;>
    simp [h]

/-- Every reachable store satisfies the listing invariant. -/
theorem listedImpliesVerified_reachable {s : Store} (hs : Reachable s) :
    ListedImpliesVerified s := by
  induction hs with
  | init => intro kv hkv; simp [emptyStore] at hkv
  | step hs hstep ih =>
    cases hstep with
    | submit name symbol logo contract descr chain uid stamp submitted_at =>
      intro kv hkv
      rcases mem_dictSet hkv with hkv' | hkv'
      · subst hkv'; intro hl; simp at hl
      · exact ih kv hkv'
    | verify proj_id tx ethApiKey ethResp solRpc data' saved reply h =>
      rcases verify_payment_command_cases h with ⟨h1, _⟩ | ⟨p, reason, hp, h1, _⟩
      · subst h1; exact ih
      · subst h1
        intro kv hkv
        rcases mem_dictSet hkv with hkv' | hkv'
        · subst hkv'; intro hh; rfl
        · exact ih kv hkv'
    | vote proj_id user_id gateA gateB =>
      intro kv hkv
      rw [vote_command_projects] at hkv
      exact ih kv hkv

/-- Every reachable store has duplicate-free vote lists. -/
theorem votesNodup_reachable {s : Store} (hs : Reachable s) : VotesNodup s := by
  induction hs with
  | init => intro kv hkv; simp [emptyStore] at hkv
  | step hs hstep ih =>
    cases hstep with
    | submit name symbol logo contract descr chain uid stamp submitted_at =>
      intro kv hkv
      rcases mem_dictSet hkv with hkv' | hkv'
      · subst hkv'; exact List.nodup_nil
      · exact ih kv hkv'
    | verify proj_id tx ethApiKey ethResp solRpc data' saved reply h =>
      intro kv hkv
      rw [verify_payment_command_votes h] at hkv
      exact ih kv hkv
    | vote proj_id user_id gateA gateB =>
      rename_i data
      rcases vote_command_cases data proj_id user_id gateA gateB with h | ⟨hv, h⟩
      · rw [h]; exact ih
      · rw [h]
        intro kv hkv
        rcases mem_dictSet hkv with hkv' | hkv'
        · subst hkv'
          have hnd : ((lookupKV data.votes proj_id).getD []).Nodup := by
            cases hl : lookupKV data.votes proj_id with
            | none => simp
            | some vs => simpa [hl] using ih (proj_id, vs) (lookupKV_mem hl)
          dsimp only
          rw [List.nodup_append]
          exact ⟨hnd, List.nodup_singleton _, by
            intro a ha hb
            simp at hb
            subst hb
            exact hv ha⟩
        · exact ih kv hkv'

theorem mem_insertByVotesDesc {x z : String × Project × Nat}
    {l : List (String × Project × Nat)} (hz : z ∈ insertByVotesDesc x l) :
    z = x ∨ z ∈ l := by
  induction l with
  | nil => simpa [insertByVotesDesc] using hz
  | cons y ys ih =>
    by_cases hc : x.2.2 < y.2.2
    · rw [insertByVotesDesc, if_pos hc] at hz
      rcases List.mem_cons.mp hz with hz' | hz'
      · exact Or.inr (by simp [hz'])
      · rcases ih hz' with hh | hh
        · exact Or.inl hh
        · exact Or.inr (List.mem_cons_of_mem _ hh)
    · rw [insertByVotesDesc, if_neg hc] at hz
      rcases List.mem_cons.mp hz with hz' | hz'
      · exact Or.inl hz'
      · exact Or.inr hz'

theorem pairwise_insertByVotesDesc (x : String × Project × Nat)
    {l : List (String × Project × Nat)}
    (h : l.Pairwise (fun a b => b.2.2 ≤ a.2.2)) :
    (insertByVotesDesc x l).Pairwise (fun a b => b.2.2 ≤ a.2.2) := by
  induction l with
  | nil => simp [insertByVotesDesc]
  | cons y ys ih =>
    rcases List.pairwise_cons.mp h with ⟨hy, hys⟩
    by_cases hc : x.2.2 < y.2.2
    · rw [insertByVotesDesc, if_pos hc]
      refine List.pairwise_cons.mpr ⟨?_, ih hys⟩
      intro z hz
      rcases mem_insertByVotesDesc hz with hz' | hz'
      · subst hz'; exact Nat.le_of_lt hc
      · exact hy z hz'
    · rw [insertByVotesDesc, if_neg hc]
      refine List.pairwise_cons.mpr ⟨?_, h⟩
      intro z hz
      rcases List.mem_cons.mp hz with hz' | hz'
      · subst hz'; exact Nat.le_of_not_lt hc
      · exact Nat.le_trans (hy z hz') (Nat.le_of_not_lt hc)

theorem sortByVotesDesc_pairwise (l : List (String × Project × Nat)) :
    (sortByVotesDesc l).Pairwise (fun a b => b.2.2 ≤ a.2.2) := by
  induction l with
  | nil => simp [sortByVotesDesc]
  | cons x xs ih => exact pairwise_insertByVotesDesc x ih

theorem length_insertByVotesDesc (x : String × Project × Nat)
    (l : List (String × Project × Nat)) :
    (insertByVotesDesc x l).length = l.length + 1 := by
  induction l with
  | nil => rfl
  | cons y ys ih =>
    by_cases hc : x.2.2 < y.2.2
    · rw [insertByVotesDesc, if_pos hc]; simp [ih]
    · rw [insertByVotesDesc, if_neg hc]; rfl

theorem length_sortByVotesDesc (l : List (String × Project × Nat)) :
    (sortByVotesDesc l).length = l.length := by
  induction l with
  | nil => rfl
  | cons x xs ih => rw [sortByVotesDesc, length_insertByVotesDesc, ih]; rfl

/-- On the elements whose vote count is `v`, inserting an element with that
very count puts it first and keeps the rest in order. (No element kept ahead
of the inserted one can have count `v`: the insertion only passes elements
with a strictly greater count.) -/
theorem filter_insertByVotesDesc_eq (x : String × Project × Nat)
    (l : List (String × Project × Nat)) (v : Nat) (hx : x.2.2 = v) :
    (insertByVotesDesc x l).filter (fun z => z.2.2 == v) =
      x :: l.filter (fun z => z.2.2 == v) := by
  induction l with
  | nil => simp [insertByVotesDesc, hx]
  | cons y ys ih =>
    by_cases hc : x.2.2 < y.2.2
    · have hy : (y.2.2 == v) = false := by
        simp only [beq_eq_false_iff_ne]
        omega
      rw [insertByVotesDesc, if_pos hc]
      simp only [List.filter_cons, hy]
      exact ih
    · rw [insertByVotesDesc, if_neg hc]
      simp [List.filter_cons, hx]

/-- Inserting an element with a different vote count leaves the `v`-count
elements and their order untouched. -/
theorem filter_insertByVotesDesc_ne (x : String × Project × Nat)
    (l : List (String × Project × Nat)) (v : Nat) (hx : x.2.2 ≠ v) :
    (insertByVotesDesc x l).filter (fun z => z.2.2 == v) =
      l.filter (fun z => z.2.2 == v) := by
  have hxb : (x.2.2 == v) = false := by simpa [beq_eq_false_iff_ne] using hx
  induction l with
  | nil => simp [insertByVotesDesc, hxb]
  | cons y ys ih =>
    by_cases hc : x.2.2 < y.2.2
    · rw [insertByVotesDesc, if_pos hc]
      simp only [List.filter_cons]
      rw [ih]
    · rw [insertByVotesDesc, if_neg hc]
      simp [List.filter_cons, hxb]

/-- Stability of the leaderboard sort: within each vote count, the sorted
list keeps the original iteration order of the project map. -/
theorem filter_sortByVotesDesc (l : List (String × Project × Nat)) (v : Nat) :
    (sortByVotesDesc l).filter (fun z => z.2.2 == v) =
      l.filter (fun z => z.2.2 == v) := by
  induction l with
  | nil => rfl
  | cons x xs ih =>
    by_cases hx : x.2.2 = v
    · rw [sortByVotesDesc, filter_insertByVotesDesc_eq x _ v hx, ih,
        List.filter_cons_of_pos (by simpa using hx)]
    · rw [sortByVotesDesc, filter_insertByVotesDesc_ne x _ v hx, ih,
        List.filter_cons_of_neg (by simpa using hx)]

/-- A minimal project record used for concrete test stores. -/
def sampleProject (pid name : String) (chain : Option String) : Project :=
  { id := pid, name := name, symbol := "SMB", logo := none,
    contract_or_wallet := none, description := "d", chain := chain,
    submitted_by := 7, submitted_at := "2026-01-01T00:00:00+00:00",
    payment_verified := false, listed := false }

/-- Snapshot with projects A, B, C inserted in that order, holding 3, 5 and
3 votes respectively. -/
def c7_store : Store :=
  { projects := [("a", sampleProject "a" "A" none), ("b", sampleProject "b" "B" none),
      ("c", sampleProject "c" "C" none)],
    votes := [("a", [1, 2, 3]), ("b", [1, 2, 3, 4, 5]), ("c", [4, 5, 6])] }

/-- C7: for every snapshot and limit, `get_top_projects` is sorted by vote
count in descending order, it is the `limit`-prefix of the stable descending
sort of the snapshot's items (so projects with equal vote counts appear in
the snapshot's original insertion order, with no secondary key), and its
length is at most `limit`; on the concrete snapshot with A(3), B(5), C(3)
inserted in order A, B, C, the output order is B, A, C. -/
theorem c7_leaderboard_order (data : Store) (limit : Nat) :
    (get_top_projects data limit).Pairwise (fun a b => b.2.2 ≤ a.2.2) ∧
    (get_top_projects data limit).length ≤ limit ∧
    get_top_projects data limit = (sortByVotesDesc (itemsOf data)).take limit ∧
    (∀ v : Nat, (sortByVotesDesc (itemsOf data)).filter (fun z => z.2.2 == v) =
      (itemsOf data).filter (fun z => z.2.2 == v)) ∧
    (get_top_projects c7_store 10).map (fun z => (z.1, z.2.2)) =
      [("b", 5), ("a", 3), ("c", 3)] := by
  refine ⟨?_, ?_, rfl, ?_, ?_⟩
  · exact (sortByVotesDesc_pairwise (itemsOf data)).sublist
      (List.take_sublist limit (sortByVotesDesc (itemsOf data)))
  · exact List.length_take_le limit (sortByVotesDesc (itemsOf data))
  · exact fun v => filter_sortByVotesDesc (itemsOf data) v
  · decide

/-- Snapshot with one project and no votes at all. -/
def c8_store : Store :=
  { projects := [("p1", sampleProject "p1" "P1" none)], votes := [("p1", [])] }

/-- C8 counterexample: a snapshot in which every project has zero votes, on
which `get_top_projects` nevertheless returns a non-empty ranking (the
zero-vote project, with count 0) — refuting the claim that the ranking is
empty whenever all projects have zero votes. -/
theorem c8_counterexample :
    (∀ kv ∈ c8_store.projects, votesFor c8_store kv.1 = 0) ∧
    get_top_projects c8_store 10 ≠ [] := by
  constructor
  · decide
  · decide

/-- C8 (amended): the ranking is empty exactly when the snapshot has no
projects or the limit is zero; projects with zero votes are still included
(with count 0), so an all-zero-votes snapshot yields a non-empty ranking. -/
theorem c8_amended_empty_iff (data : Store) (limit : Nat) :
    get_top_projects data limit = [] ↔ data.projects = [] ∨ limit = 0 := by
  unfold get_top_projects
  rw [List.take_eq_nil_iff]
  constructor
  · rintro (h | h)
    · exact Or.inr h
    · have hlen := length_sortByVotesDesc (itemsOf data)
      rw [h] at hlen
      have : itemsOf data = [] := List.length_eq_zero.mp hlen.symm
      exact Or.inl (List.map_eq_nil_iff.mp this)
  · rintro (h | h)
    · refine Or.inr ?_
      have : itemsOf data = [] := by simp [itemsOf, h]
      rw [this]
      rfl
    · exact Or.inl h

/-- Unfolding of the EVM check on a 200 reply carrying a transaction result:
only the recipient comparison and the value parse remain. -/
theorem check_eth_reply_some (k : String) (result : EthTxResult) (tx e : String) :
    check_eth_tx_for_payment (some k) (.reply 200 (.ok (some result))) tx e =
      if pyLower (result.toAddr.getD "") ≠ pyLower e then
        .ok (false, "Tx recipient " ++ (result.toAddr.getD "") ++
          " does not match expected " ++ e ++ ".")
      else if (parseHexInt (result.value.getD "0x0")).getD 0 ≤ 0 then
        .ok (false, "Transaction value is zero.")
      else
        .ok (true, "Transaction found and sent to expected address.") := by
  simp [check_eth_tx_for_payment]

/-- C1: for an EVM verification with a credential configured and a
transaction found, a case-insensitively matching recipient together with a
strictly positive base-16 value yields verified=true; a zero (or
non-positive) parsed value with matching recipient yields verified=false
with the zero-value reason; a recipient mismatch yields verified=false with
the reason naming both recipient addresses; and two expected addresses that
agree up to letter case always produce the same verified flag. -/
theorem c1_eth_verify_correct (k : String) (result : EthTxResult)
    (tx expected_to : String) :
    (pyLower (result.toAddr.getD "") = pyLower expected_to →
      ∀ v : Int, parseHexInt (result.value.getD "0x0") = some v → 0 < v →
      check_eth_tx_for_payment (some k) (.reply 200 (.ok (some result))) tx expected_to =
        .ok (true, "Transaction found and sent to expected address.")) ∧
    (pyLower (result.toAddr.getD "") = pyLower expected_to →
      ∀ v : Int, parseHexInt (result.value.getD "0x0") = some v → v ≤ 0 →
      check_eth_tx_for_payment (some k) (.reply 200 (.ok (some result))) tx expected_to =
        .ok (false, "Transaction value is zero.")) ∧
    (pyLower (result.toAddr.getD "") ≠ pyLower expected_to →
      check_eth_tx_for_payment (some k) (.reply 200 (.ok (some result))) tx expected_to =
        .ok (false, "Tx recipient " ++ (result.toAddr.getD "") ++
          " does not match expected " ++ expected_to ++ ".")) ∧
    (∀ e1 e2 : String, pyLower e1 = pyLower e2 →
      (check_eth_tx_for_payment (some k) (.reply 200 (.ok (some result))) tx e1).map Prod.fst =
      (check_eth_tx_for_payment (some k) (.reply 200 (.ok (some result))) tx e2).map Prod.fst) := by
  refine ⟨?_, ?_, ?_, ?_⟩
  · intro hm v hv hpos
    rw [check_eth_reply_some, if_neg (by simpa using hm), hv]
    simp
    omega
  · intro hm v hv hnonpos
    rw [check_eth_reply_some, if_neg (by simpa using hm), hv]
    simp
    omega
  · intro hm
    rw [check_eth_reply_some, if_pos hm]
  · intro e1 e2 h12
    rw [check_eth_reply_some, check_eth_reply_some]
    by_cases hc : pyLower (result.toAddr.getD "") ≠ pyLower e2
    · rw [if_pos hc, if_pos (by rw [h12]; exact hc)]
      rfl
    · rw [if_neg hc, if_neg (by rw [h12]; exact hc)]

/-- C2 counterexample: a transport exception (a requests timeout) raised
during the Etherscan query escapes `check_eth_tx_for_payment` uncaught — the
function body wraps no network call in try/except — refuting the claim that
no network-related exception propagates out of the EVM verifier. -/
theorem c2_counterexample :
    check_eth_tx_for_payment (some "APIKEY") (.exn "requests.exceptions.ReadTimeout")
      "0xdeadbeef" "0xEf3C9Fb7B03A0e78D1D689949b8BDee735737d67" =
      .error "requests.exceptions.ReadTimeout" := rfl

/-- C2 (amended): the Solana verifier catches every network failure at its
boundary and converts it to a (verified=false, reason) result, and the EVM
verifier converts a non-200 status and a missing result to such a result;
but the EVM verifier wraps no network call in try/except, so a
transport/timeout exception from its request, or a JSON-decode exception on
its 200 response, escapes `check_eth_tx_for_payment` itself. From the
orchestrator, however, that body is never reached: the two-argument call at
line 306 to the three-parameter function raises TypeError at argument
binding, so every ETH/BNB attempt through `verify_payment_command` fails
with that TypeError before any network I/O — the exception reaching the
orchestrator on the EVM path is the arity error, never a network one. -/
theorem c2_amended_propagation (k e tx expected : String) (status : Nat)
    (body : Except String (Option EthTxResult)) (jsonErr : String)
    (ethApiKey : Option String) (ethResp : EthResponse) :
    (∀ sig exp, check_solana_tx_for_payment (.exn e) sig exp =
      (false, "RPC call error: " ++ e)) ∧
    (status ≠ 200 →
      check_eth_tx_for_payment (some k) (.reply status body) tx expected =
        .ok (false, "Etherscan query failed with status " ++ toString status)) ∧
    (check_eth_tx_for_payment (some k) (.reply 200 (.ok none)) tx expected =
      .ok (false, "Transaction not found.")) ∧
    (check_eth_tx_for_payment (some k) (.exn e) tx expected = .error e) ∧
    (check_eth_tx_for_payment (some k) (.reply 200 (.error jsonErr)) tx expected =
      .error jsonErr) ∧
    (verify_payment_command
        (Store.mk [("pid", sampleProject "pid" "P" (some "ETH"))] []) "pid" tx
        ethApiKey ethResp (.reply none) = .error eth_dispatch_type_error) := by
  refine ⟨fun sig exp => rfl, ?_, rfl, rfl, ?_, ?_⟩
  · intro hs
    simp [check_eth_tx_for_payment, hs]
  · simp [check_eth_tx_for_payment]
  · rfl

/-- C10: when the transaction value field is present but not parseable as
base-16, the EVM check does not raise: the value is treated as zero, the
outcome is identical to that of an actual zero-wei transfer, the verified
flag is false, and — when the recipient matches — the reason is the
zero-value one. -/
theorem c10_eth_unparsable_value (k : String) (result : EthTxResult)
    (vh tx expected_to : String) (hval : result.value = some vh)
    (hbad : parseHexInt vh = none) :
    check_eth_tx_for_payment (some k) (.reply 200 (.ok (some result))) tx expected_to =
      check_eth_tx_for_payment (some k)
        (.reply 200 (.ok (some { result with value := some "0x0" }))) tx expected_to ∧
    (∃ r, check_eth_tx_for_payment (some k) (.reply 200 (.ok (some result))) tx expected_to =
      .ok (false, r)) ∧
    (pyLower (result.toAddr.getD "") = pyLower expected_to →
      check_eth_tx_for_payment (some k) (.reply 200 (.ok (some result))) tx expected_to =
        .ok (false, "Transaction value is zero.")) := by
  have hz : (parseHexInt (result.value.getD "0x0")).getD 0 = 0 := by
    rw [hval]
    simp [hbad]
  have hz0 : parseHexInt ((some "0x0" : Option String).getD "0x0") = some 0 := by decide
  refine ⟨?_, ?_, ?_⟩
  · rw [check_eth_reply_some, check_eth_reply_some]
    by_cases hc : pyLower (result.toAddr.getD "") ≠ pyLower expected_to
    · rw [if_pos hc, if_pos hc]
    · rw [if_neg hc, if_neg hc, if_pos (by rw [hz]), if_pos (by rw [hz0]; simp)]
  · rw [check_eth_reply_some]
    by_cases hc : pyLower (result.toAddr.getD "") ≠ pyLower expected_to
    · rw [if_pos hc]
      exact ⟨_, rfl⟩
    · rw [if_neg hc, if_pos (by rw [hz])]
      exact ⟨_, rfl⟩
  · intro hm
    rw [check_eth_reply_some, if_neg (by simpa using hm), if_pos (by rw [hz])]

/-- C3: whenever the Solana RPC returns a transaction result and the
account-key scan does not raise, the check reports verified=true — in
particular with the lenient fallback reason when the expected address is
absent from the account keys — and it reports verified=false exactly when
the RPC call raised, no result came back, or the account-key scan raised
(a raw string entry hit after the plain membership test failed). -/
theorem c3_solana_lenient (rpc : SolRpc) (sig expected_to : String) :
    (∀ result pks, rpc = .reply (some result) →
      pubkeyList result.accountKeys = .ok pks →
      (check_solana_tx_for_payment rpc sig expected_to).1 = true) ∧
    (∀ result pks, rpc = .reply (some result) →
      result.accountKeys.any (keyEqString expected_to) = false →
      pubkeyList result.accountKeys = .ok pks →
      pks.contains (some expected_to) = false →
      check_solana_tx_for_payment rpc sig expected_to =
        (true, "Transaction found (note: this is a basic check; inspect details manually for USD amount).")) ∧
    ((check_solana_tx_for_payment rpc sig expected_to).1 = false ↔
      (∃ e, rpc = .exn e) ∨ rpc = .reply none ∨
      (∃ result, rpc = .reply (some result) ∧
        result.accountKeys.any (keyEqString expected_to) = false ∧
        pubkeyList result.accountKeys = .error ())) := by
  refine ⟨?_, ?_, ?_⟩
  · rintro result pks rfl hok
    unfold check_solana_tx_for_payment
    dsimp only
    by_cases hA : result.accountKeys.any (keyEqString expected_to) = true
    · rw [if_pos hA]
    · rw [if_neg hA, hok]
      dsimp only
      split <;> rfl
  · rintro result pks rfl hA hok hC
    unfold check_solana_tx_for_payment
    dsimp only
    rw [if_neg (by simp [hA]), hok]
    dsimp only
    rw [if_neg (by rw [hC]; simp)]
  · cases rpc with
    | exn e => simp [check_solana_tx_for_payment]
    | reply o =>
      cases o with
      | none => simp [check_solana_tx_for_payment]
      | some result =>
        unfold check_solana_tx_for_payment
        dsimp only
        by_cases hA : result.accountKeys.any (keyEqString expected_to) = true
        · rw [if_pos hA]
          constructor
          · intro h
            cases h
          · rintro (⟨e, he⟩ | he | ⟨r, hr, hA2, hE⟩)
            · cases he
            · cases he
            · cases hr
              rw [hA] at hA2
              cases hA2
        · rw [if_neg hA]
          cases hok : pubkeyList result.accountKeys with
          | error u =>
            cases u
            simp only [hok]
            constructor
            · intro _
              exact Or.inr (Or.inr ⟨result, rfl, by simpa using hA, hok⟩)
            · intro _
              trivial
          | ok pks =>
            simp only [hok]
            constructor
            · intro h
              split at h <;> cases h
            · rintro (⟨e, he⟩ | he | ⟨r, hr, hA2, hE⟩)
              · cases he
              · cases he
              · cases hr
                rw [hok] at hE
                cases hE

/-- C9: when the dispatched chain verifier reports verified=false, the
orchestrating command returns the store unchanged, performs no save, and
hands the verifier's reason back to the caller. -/
theorem c9_rejected_leaves_store (data : Store) (proj_id tx : String)
    (ethApiKey : Option String) (ethResp : EthResponse) (solRpc : SolRpc)
    (project : Project) (reason : String)
    (hp : lookupKV data.projects proj_id = some project)
    (hv : dispatch_verifier project tx ethApiKey ethResp solRpc = .ok (false, reason)) :
    verify_payment_command data proj_id tx ethApiKey ethResp solRpc =
      .ok (data, false, .failed reason) := by
  unfold verify_payment_command
  rw [hp]
  dsimp only
  rw [hv]
  rfl

/-- C5: for an eligible voter and an existing project, the first vote is
recorded (appending the voter), the project's vote count grows by exactly
one, an identical second call reports AlreadyVoted and leaves the store
unchanged, and in every reachable store no voter id occurs twice in any
project's vote list. -/
theorem c5_vote_idempotent (data : Store) (proj_id : String) (user_id : Nat)
    (sa sb : String) (project : Project)
    (hp : lookupKV data.projects proj_id = some project)
    (hsa : sa ∈ valid_statuses) (hsb : sb ∈ valid_statuses)
    (hnv : user_id ∉ (lookupKV data.votes proj_id).getD []) :
    (vote_command data proj_id user_id (.ok sa) (.ok sb)).2 = .recorded project.name ∧
    votesFor (vote_command data proj_id user_id (.ok sa) (.ok sb)).1 proj_id =
      votesFor data proj_id + 1 ∧
    vote_command (vote_command data proj_id user_id (.ok sa) (.ok sb)).1 proj_id user_id
        (.ok sa) (.ok sb) =
      ((vote_command data proj_id user_id (.ok sa) (.ok sb)).1, .alreadyVoted) ∧
    (∀ s, Reachable s → ∀ kv ∈ s.votes, kv.2.Nodup) := by
  have hel : ¬ (sa ∉ valid_statuses ∨ sb ∉ valid_statuses) := by
    push_neg
    exact ⟨hsa, hsb⟩
  have h1 : vote_command data proj_id user_id (.ok sa) (.ok sb) =
      ({ data with votes := (dictSet data.votes proj_id
          (((lookupKV data.votes proj_id).getD []) ++ [user_id])) },
        .recorded project.name) := by
    unfold vote_command
    rw [hp]
    dsimp only
    rw [if_neg hel, if_neg hnv]
  refine ⟨by rw [h1], ?_, ?_, fun s hs => votesNodup_reachable hs⟩
  · rw [h1]
    unfold votesFor
    dsimp only
    rw [lookupKV_dictSet_self]
    simp
  · rw [h1]
    unfold vote_command
    dsimp only
    rw [hp]
    dsimp only
    rw [if_neg hel, lookupKV_dictSet_self]
    rw [if_pos (by simp)]

/-- C6: a vote on an existing project is recorded only when both membership
checks return an eligible status (member, administrator or creator); a
raised membership check, or an ineligible status from either group, yields
the corresponding diagnostic reply with the store unchanged. -/
theorem c6_vote_eligibility_gate (data : Store) (proj_id : String) (user_id : Nat)
    (project : Project) (hp : lookupKV data.projects proj_id = some project) :
    (∀ e gateB, vote_command data proj_id user_id (.error e) gateB = (data, .gateError)) ∧
    (∀ sa e, vote_command data proj_id user_id (.ok sa) (.error e) = (data, .gateError)) ∧
    (∀ sa sb, (sa ∉ valid_statuses ∨ sb ∉ valid_statuses) →
      vote_command data proj_id user_id (.ok sa) (.ok sb) = (data, .notEligible)) ∧
    (∀ gateA gateB name, (vote_command data proj_id user_id gateA gateB).2 = .recorded name →
      ∃ sa sb, gateA = .ok sa ∧ gateB = .ok sb ∧
        sa ∈ valid_statuses ∧ sb ∈ valid_statuses) := by
  refine ⟨?_, ?_, ?_, ?_⟩
  · intro e gateB
    unfold vote_command
    rw [hp]
  · intro sa e
    unfold vote_command
    rw [hp]
  · intro sa sb he
    unfold vote_command
    rw [hp]
    dsimp only
    rw [if_pos he]
  · intro gateA gateB name hrec
    cases gateA with
    | error e =>
      unfold vote_command at hrec
      rw [hp] at hrec
      cases hrec
    | ok sa =>
      cases gateB with
      | error e =>
        unfold vote_command at hrec
        rw [hp] at hrec
        cases hrec
      | ok sb =>
        refine ⟨sa, sb, rfl, rfl, ?_⟩
        unfold vote_command at hrec
        rw [hp] at hrec
        dsimp only at hrec
        by_cases he : sa ∉ valid_statuses ∨ sb ∉ valid_statuses
        · rw [if_pos he] at hrec
          cases hrec
        · rcases not_or.mp he with ⟨ha, hb⟩
          exact ⟨not_not.mp ha, not_not.mp hb⟩

/-- The project record created by confirming the submission of "Alpha"
(chain SOL) at epoch second 1. -/
def c4_projectAlpha : Project :=
  { id := "alpha_1", name := "Alpha", symbol := "AL", logo := none,
    contract_or_wallet := none, description := "d", chain := some "SOL",
    submitted_by := 7, submitted_at := "t", payment_verified := false,
    listed := false }

/-- Store after that submission. -/
def c4_store1 : Store := ⟨[("alpha_1", c4_projectAlpha)], [("alpha_1", [])]⟩

/-- Solana RPC reply whose account keys contain the configured SOL
wallet. -/
def c4_solReply : SolRpc :=
  .reply (some ⟨[.raw "EZL57GDRFCr5mGNstcQjwDgspfrWr579d97mtQo63EWn"]⟩)

/-- Store after the payment of "Alpha" is verified. -/
def c4_store2 : Store :=
  ⟨[("alpha_1", { c4_projectAlpha with payment_verified := true, listed := true })],
   [("alpha_1", [])]⟩

/-- Store after "Alpha" is submitted again at the same epoch second: the
generated id collides and the record is overwritten. -/
def c4_store3 : Store :=
  submit_confirm c4_store2 "Alpha" "AL" none none "d" (some "SOL") 7 1 "t"

/-- C4 counterexample: from a reachable store whose project "alpha_1" has
payment_verified=true, a second confirmed submission of the same name in the
same epoch second generates the same id and overwrites the record with a
fresh one having payment_verified=false — an operation that reverts
payment_verified to false, refuting that clause of the claim (the
listed-implies-verified invariant itself survives, see the amended claim). -/
theorem c4_counterexample :
    Reachable c4_store2 ∧ Step c4_store2 c4_store3 ∧
    (lookupKV c4_store2.projects "alpha_1").map Project.payment_verified = some true ∧
    (lookupKV c4_store3.projects "alpha_1").map Project.payment_verified = some false := by
  have h0 : submit_confirm emptyStore "Alpha" "AL" none none "d" (some "SOL") 7 1 "t" =
      c4_store1 := by decide
  have h1 : Reachable c4_store1 := by
    have h := Reachable.step Reachable.init
      (Step.submit emptyStore "Alpha" "AL" none none "d" (some "SOL") 7 1 "t")
    rwa [h0] at h
  have hv : verify_payment_command c4_store1 "alpha_1" "sig" none (.exn "") c4_solReply =
      .ok (c4_store2, true, .verified "Found expected recipient in tx (basic check).") := by
    rfl
  have h2 : Reachable c4_store2 :=
    Reachable.step h1 (Step.verify c4_store1 "alpha_1" "sig" none (.exn "") c4_solReply
      c4_store2 true (.verified "Found expected recipient in tx (basic check).") hv)
  exact ⟨h2, Step.submit c4_store2 "Alpha" "AL" none none "d" (some "SOL") 7 1 "t",
    by decide, by decide⟩

/-- C4 (amended): the invariant listed ⇒ payment_verified holds in every
reachable store; project creation stores a record with both fields false; a
successful verification sets payment_verified and listed to true in the same
mutation; voting never touches project records and a verification never
reverts payment_verified — the only reverting operation is a re-submission
whose generated id collides with an existing project, which replaces the
record by a fresh unverified one (preserving the invariant). -/
theorem c4_amended_listed_invariant :
    (∀ s, Reachable s → ListedImpliesVerified s) ∧
    (∀ data name symbol logo contract descr chain uid stamp sat,
      lookupKV (submit_confirm data name symbol logo contract descr chain uid stamp sat).projects
          (make_project_id name stamp) =
        some { id := make_project_id name stamp, name := name, symbol := symbol,
               logo := logo, contract_or_wallet := contract, description := descr,
               chain := chain, submitted_by := uid, submitted_at := sat,
               payment_verified := false, listed := false }) ∧
    (∀ data pid tx k e r data' saved reason,
      verify_payment_command data pid tx k e r = .ok (data', saved, .verified reason) →
      ∃ p, lookupKV data.projects pid = some p ∧
        lookupKV data'.projects pid =
          some ({ p with payment_verified := true, listed := true })) ∧
    (∀ data pid uid gA gB,
      (vote_command data pid uid gA gB).1.projects = data.projects) ∧
    (∀ data pid tx k e r data' saved reply pid2 q,
      verify_payment_command data pid tx k e r = .ok (data', saved, reply) →
      lookupKV data.projects pid2 = some q → q.payment_verified = true →
      ∃ q', lookupKV data'.projects pid2 = some q' ∧ q'.payment_verified = true) := by
  refine ⟨fun s hs => listedImpliesVerified_reachable hs, ?_, ?_, ?_, ?_⟩
  · intro data name symbol logo contract descr chain uid stamp sat
    unfold submit_confirm
    dsimp only
    rw [lookupKV_dictSet_self]
  · intro data pid tx k e r data' saved reason h
    rcases verify_payment_command_cases h with ⟨_, _, hr⟩ | ⟨p, reason2, hp, h1, _, hr⟩
    · rcases hr with hr | ⟨r2, hr⟩ <;> cases hr
    · cases hr
      subst h1
      exact ⟨p, hp, by dsimp only; rw [lookupKV_dictSet_self]⟩
  · intro data pid uid gA gB
    exact vote_command_projects data pid uid gA gB
  · intro data pid tx k e r data' saved reply pid2 q h hq hqv
    rcases verify_payment_command_cases h with ⟨h1, _⟩ | ⟨p, reason2, hp, h1, _, _⟩
    · subst h1
      exact ⟨q, hq, hqv⟩
    · subst h1
      by_cases hpid : pid2 = pid
      · subst hpid
        exact ⟨_, by dsimp only; rw [lookupKV_dictSet_self], rfl⟩
      · exact ⟨q, by dsimp only; rw [lookupKV_dictSet_ne _ _ hpid]; exact hq, hqv⟩

/-- Witness for c1: a concrete transaction to the expected address, written
in a different letter case, carrying 5 wei, verifies. -/
theorem c1_eth_verify_correct_witness :
    check_eth_tx_for_payment (some "K")
      (.reply 200 (.ok (some ⟨some "0xEf3C9Fb7B03A0e78D1D689949b8BDee735737d67", some "0x5"⟩)))
      "0xdead" "0xef3c9fb7b03a0e78d1d689949b8bdee735737d67" =
      .ok (true, "Transaction found and sent to expected address.") :=
  (c1_eth_verify_correct "K"
    ⟨some "0xEf3C9Fb7B03A0e78D1D689949b8BDee735737d67", some "0x5"⟩
    "0xdead" "0xef3c9fb7b03a0e78d1d689949b8bdee735737d67").1 (by decide) 5 (by decide)
    (by decide)

/-- Witness for the amended c2: a 404 reply is converted to a typed failure
result. -/
theorem c2_amended_propagation_witness :
    check_eth_tx_for_payment (some "K") (.reply 404 (.ok none)) "0xdead" "0xab" =
      .ok (false, "Etherscan query failed with status 404") :=
  (c2_amended_propagation "K" "boom" "0xdead" "0xab" 404 (.ok none) "jerr" none
    (.exn "x")).2.1 (by decide)

/-- Witness for c3: a found transaction with no account keys at all is still
reported verified, with the lenient fallback reason. -/
theorem c3_solana_lenient_witness :
    check_solana_tx_for_payment (.reply (some ⟨[]⟩)) "sig"
      "EZL57GDRFCr5mGNstcQjwDgspfrWr579d97mtQo63EWn" =
      (true, "Transaction found (note: this is a basic check; inspect details manually for USD amount).") :=
  (c3_solana_lenient (.reply (some ⟨[]⟩)) "sig"
    "EZL57GDRFCr5mGNstcQjwDgspfrWr579d97mtQo63EWn").2.1 ⟨[]⟩ [] rfl rfl rfl rfl

/-- Witness for the amended c4: the concrete verification of "alpha_1" sets
payment_verified and listed together. -/
theorem c4_amended_listed_invariant_witness :
    ∃ p, lookupKV c4_store1.projects "alpha_1" = some p ∧
      lookupKV c4_store2.projects "alpha_1" =
        some ({ p with payment_verified := true, listed := true }) :=
  c4_amended_listed_invariant.2.2.1 c4_store1 "alpha_1" "sig" none (.exn "") c4_solReply
    c4_store2 true "Found expected recipient in tx (basic check)." rfl

/-- Witness for c5: user 42, a member of both groups, votes for "alpha_1"
and the vote is recorded. -/
theorem c5_vote_idempotent_witness :
    (vote_command c4_store1 "alpha_1" 42 (.ok "member") (.ok "administrator")).2 =
      .recorded "Alpha" :=
  (c5_vote_idempotent c4_store1 "alpha_1" 42 "member" "administrator" c4_projectAlpha
    rfl (by decide) (by decide) (by decide)).1

/-- Witness for c6: a raised membership check yields the gate-error reply
with the store unchanged. -/
theorem c6_vote_eligibility_gate_witness :
    vote_command c4_store1 "alpha_1" 42 (.error "Forbidden") (.ok "member") =
      (c4_store1, .gateError) :=
  (c6_vote_eligibility_gate c4_store1 "alpha_1" 42 c4_projectAlpha rfl).1 "Forbidden"
    (.ok "member")

/-- Witness for c9: a Solana transaction that is not found leaves the store
untouched and reports the verifier's reason. -/
theorem c9_rejected_leaves_store_witness :
    verify_payment_command c4_store1 "alpha_1" "sig" none (.exn "boom") (.reply none) =
      .ok (c4_store1, false, .failed "Transaction not found on Solana RPC.") :=
  c9_rejected_leaves_store c4_store1 "alpha_1" "sig" none (.exn "boom") (.reply none)
    c4_projectAlpha "Transaction not found on Solana RPC." rfl rfl

/-- Witness for c10: an unparsable hex value on a matching recipient is
rejected with the zero-value reason. -/
theorem c10_eth_unparsable_value_witness :
    check_eth_tx_for_payment (some "K")
      (.reply 200 (.ok (some ⟨some "0xAB", some "zz"⟩))) "0xdead" "0xab" =
      .ok (false, "Transaction value is zero.") :=
  (c10_eth_unparsable_value "K" ⟨some "0xAB", some "zz"⟩ "zz" "0xdead" "0xab" rfl
    rfl).2.2 (by decide)

end DragonsTrend
